import Mathlib

set_option maxRecDepth 100000

/-!
Shallow embedding of the request-signing core of `remitano-api-rs`
(`src/lib.rs`). The crate builds an API-Auth style signed HTTP request:
it hashes the optional JSON body (MD5, base64), builds a canonical
request string, signs it (HMAC-SHA1, base64) with the configured secret,
and assembles headers and URL for dispatch.

Machine integers are modelled as `Nat` reduced modulo `2^32` where the
source's `u32` arithmetic wraps. Bytes are `Nat` values below 256 in
`List Nat`. The MD5, SHA1, HMAC-SHA1 and base64 primitives are embedded
from their standard definitions (RFC 1321, RFC 3174, RFC 2104, RFC 4648),
which is what the `md5`, `sha1`, `hmac` and `base64` crates implement.
-/

namespace Remitano

/-- Byte sequences: each element is a `Nat` below 256. -/
abbrev Bytes := List Nat

/-- Reduce modulo `2^32`, the wrap-around of 32-bit arithmetic. -/
def m32 (x : Nat) : Nat := x % 4294967296

/-- Left rotation of a 32-bit word by `n` bits (`0 ≤ n < 32`). -/
def rotl32 (x n : Nat) : Nat :=
  ((x <<< n) % 4294967296) ||| (x >>> (32 - n))

/-- Bitwise complement of a 32-bit word. -/
def not32 (x : Nat) : Nat := x ^^^ 4294967295

/-- Split a 32-bit word into four bytes, little-endian. -/
def wordToBytesLE (x : Nat) : Bytes :=
  [x % 256, (x >>> 8) % 256, (x >>> 16) % 256, (x >>> 24) % 256]

/-- Split a 32-bit word into four bytes, big-endian. -/
def wordToBytesBE (x : Nat) : Bytes :=
  [(x >>> 24) % 256, (x >>> 16) % 256, (x >>> 8) % 256, x % 256]

/-- Read a little-endian 32-bit word from the four bytes at offset `i`. -/
def wordAtLE (chunk : Bytes) (i : Nat) : Nat :=
  chunk.getD i 0 + (chunk.getD (i + 1) 0) <<< 8 +
    (chunk.getD (i + 2) 0) <<< 16 + (chunk.getD (i + 3) 0) <<< 24

/-- Read a big-endian 32-bit word from the four bytes at offset `i`. -/
def wordAtBE (chunk : Bytes) (i : Nat) : Nat :=
  (chunk.getD i 0) <<< 24 + (chunk.getD (i + 1) 0) <<< 16 +
    (chunk.getD (i + 2) 0) <<< 8 + chunk.getD (i + 3) 0

/-- Cut a byte list into chunks of 64 bytes, recursing on a fuel bound
so that the definition reduces structurally. -/
def chunks64Aux : Nat → Bytes → List Bytes
  | 0, msg => [msg.take 64]
  | fuel + 1, msg =>
    if msg.length ≤ 64 then [msg.take 64]
    else msg.take 64 :: chunks64Aux fuel (msg.drop 64)

/-- Cut a byte list into chunks of 64 bytes (one hash block each); the
length of the list is always enough fuel. -/
def chunks64 (msg : Bytes) : List Bytes :=
  chunks64Aux msg.length msg

/-- Encode a `Nat` as `n` bytes, little-endian. -/
def natToBytesLE : Nat → Nat → Bytes
  | 0, _ => []
  | n + 1, x => x % 256 :: natToBytesLE n (x >>> 8)

/-- Encode a `Nat` as `n` bytes, big-endian. -/
def natToBytesBE (n x : Nat) : Bytes :=
  (natToBytesLE n x).reverse

/-! ## Base64 (RFC 4648, standard alphabet, with padding) -/

/-- The standard base64 alphabet as a list of characters. -/
def base64Alphabet : List Char :=
  "ABCDEFGHIJKLMNOPQRSTUVWXYZabcdefghijklmnopqrstuvwxyz0123456789+/".data

/-- Character for a 6-bit group. -/
def b64Char (x : Nat) : Char := base64Alphabet.getD (x % 64) (Char.ofNat 65)

/-- Encode a byte list in standard base64 with `=` padding. -/
def base64Chars : Bytes → List Char
  | [] => []
  | [a] =>
      [b64Char (a >>> 2), b64Char ((a % 4) <<< 4), Char.ofNat 61, Char.ofNat 61]
  | [a, b] =>
      [b64Char (a >>> 2), b64Char (((a % 4) <<< 4) ||| (b >>> 4)),
        b64Char ((b % 16) <<< 2), Char.ofNat 61]
  | a :: b :: c :: rest =>
      b64Char (a >>> 2) :: b64Char (((a % 4) <<< 4) ||| (b >>> 4)) ::
        b64Char (((b % 16) <<< 2) ||| (c >>> 6)) :: b64Char (c % 64) ::
        base64Chars rest

/-- Base64 encoding of a byte list, as a string (`base64::encode`). -/
def base64Encode (bs : Bytes) : String := String.mk (base64Chars bs)

/-! ## MD5 (RFC 1321) -/

/-- Per-round additive constants of MD5: `⌊2^32 · |sin (i+1)|⌋` for
round `i`. -/
def md5K : List Nat :=
  [3614090360, 3905402710, 606105819, 3250441966,
   4118548399, 1200080426, 2821735955, 4249261313,
   1770035416, 2336552879, 4294925233, 2304563134,
   1804603682, 4254626195, 2792965006, 1236535329,
   4129170786, 3225465664, 643717713, 3921069994,
   3593408605, 38016083, 3634488961, 3889429448,
   568446438, 3275163606, 4107603335, 1163531501,
   2850285829, 4243563512, 1735328473, 2368359562,
   4294588738, 2272392833, 1839030562, 4259657740,
   2763975236, 1272893353, 4139469664, 3200236656,
   681279174, 3936430074, 3572445317, 76029189,
   3654602809, 3873151461, 530742520, 3299628645,
   4096336452, 1126891415, 2878612391, 4237533241,
   1700485571, 2399980690, 4293915773, 2240044497,
   1873313359, 4264355552, 2734768916, 1309151649,
   4149444226, 3174756917, 718787259, 3951481745]

/-- Per-round left-rotation amounts of MD5. -/
def md5S : List Nat :=
  [7, 12, 17, 22, 7, 12, 17, 22, 7, 12, 17, 22, 7, 12, 17, 22,
   5, 9, 14, 20, 5, 9, 14, 20, 5, 9, 14, 20, 5, 9, 14, 20,
   4, 11, 16, 23, 4, 11, 16, 23, 4, 11, 16, 23, 4, 11, 16, 23,
   6, 10, 15, 21, 6, 10, 15, 21, 6, 10, 15, 21, 6, 10, 15, 21]

/-- The MD5 nonlinear function for round `i` applied to words `b c d`. -/
def md5F (i b c d : Nat) : Nat :=
  if i < 16 then (b &&& c) ||| (not32 b &&& d)
  else if i < 32 then (d &&& b) ||| (not32 d &&& c)
  else if i < 48 then b ^^^ c ^^^ d
  else c ^^^ (b ||| not32 d)

/-- The message-word index used by MD5 round `i`. -/
def md5G (i : Nat) : Nat :=
  if i < 16 then i
  else if i < 32 then (5 * i + 1) % 16
  else if i < 48 then (3 * i + 5) % 16
  else (7 * i) % 16

/-- One MD5 round: state is `(a, b, c, d)`. -/
def md5Round (chunk : Bytes) (st : Nat × Nat × Nat × Nat) (i : Nat) :
    Nat × Nat × Nat × Nat :=
  let (a, b, c, d) := st
  let f := md5F i b c d
  let g := md5G i
  let tmp := m32 (a + f + md5K.getD i 0 + wordAtLE chunk (4 * g))
  (d, m32 (b + rotl32 tmp (md5S.getD i 0)), b, c)

/-- Process one 64-byte block of MD5, updating the running state. -/
def md5Block (st : Nat × Nat × Nat × Nat) (chunk : Bytes) :
    Nat × Nat × Nat × Nat :=
  let (a0, b0, c0, d0) := st
  let (a, b, c, d) := (List.range 64).foldl (md5Round chunk) (a0, b0, c0, d0)
  (m32 (a0 + a), m32 (b0 + b), m32 (c0 + c), m32 (d0 + d))

/-- MD5 padding: append `0x80`, zero bytes to 56 mod 64, then the
bit length as 8 little-endian bytes. -/
def md5Pad (msg : Bytes) : Bytes :=
  let padLen := (55 + 64 - msg.length % 64) % 64 + 1
  msg ++ (128 :: List.replicate (padLen - 1) 0) ++
    natToBytesLE 8 (msg.length * 8)

/-- The 16-byte MD5 digest of a byte list. -/
def md5Bytes (msg : Bytes) : Bytes :=
  let init : Nat × Nat × Nat × Nat :=
    (1732584193, 4023233417, 2562383102, 271733878)
  let (a, b, c, d) := (chunks64 (md5Pad msg)).foldl md5Block init
  wordToBytesLE a ++ wordToBytesLE b ++ wordToBytesLE c ++ wordToBytesLE d

/-! ## SHA-1 (RFC 3174) -/

/-- Expanded message schedule of SHA-1: words 0–15 come from the block
big-endian, later words by the rotate-XOR recurrence. Returns the
schedule reversed-accumulated; `sha1W chunk i` is word `i`. -/
def sha1WAux (chunk : Bytes) : Nat → List Nat
  | 0 => []
  | i + 1 =>
      let prev := sha1WAux chunk i
      let w :=
        if i < 16 then wordAtBE chunk (4 * i)
        else
          rotl32 ((prev.getD 2 0) ^^^ (prev.getD 7 0) ^^^
            (prev.getD 13 0) ^^^ (prev.getD 15 0)) 1
      w :: prev

/-- Word `i` of the SHA-1 message schedule for a 64-byte block. -/
def sha1W (chunk : Bytes) (i : Nat) : Nat :=
  (sha1WAux chunk (i + 1)).getD 0 0

/-- The SHA-1 nonlinear function for round `i` applied to words `b c d`. -/
def sha1F (i b c d : Nat) : Nat :=
  if i < 20 then (b &&& c) ||| (not32 b &&& d)
  else if i < 40 then b ^^^ c ^^^ d
  else if i < 60 then (b &&& c) ||| (b &&& d) ||| (c &&& d)
  else b ^^^ c ^^^ d

/-- The SHA-1 additive constant for round `i`. -/
def sha1KC (i : Nat) : Nat :=
  if i < 20 then 1518500249
  else if i < 40 then 1859775393
  else if i < 60 then 2400959708
  else 3395469782

/-- One SHA-1 round: state is `(a, b, c, d, e)`. -/
def sha1Round (chunk : Bytes) (st : Nat × Nat × Nat × Nat × Nat) (i : Nat) :
    Nat × Nat × Nat × Nat × Nat :=
  let (a, b, c, d, e) := st
  let tmp := m32 (rotl32 a 5 + sha1F i b c d + e + sha1KC i + sha1W chunk i)
  (tmp, a, rotl32 b 30, c, d)

/-- Process one 64-byte block of SHA-1, updating the running state. -/
def sha1Block (st : Nat × Nat × Nat × Nat × Nat) (chunk : Bytes) :
    Nat × Nat × Nat × Nat × Nat :=
  let (h0, h1, h2, h3, h4) := st
  let (a, b, c, d, e) :=
    (List.range 80).foldl (sha1Round chunk) (h0, h1, h2, h3, h4)
  (m32 (h0 + a), m32 (h1 + b), m32 (h2 + c), m32 (h3 + d), m32 (h4 + e))

/-- SHA-1 padding: append `0x80`, zero bytes to 56 mod 64, then the
bit length as 8 big-endian bytes. -/
def sha1Pad (msg : Bytes) : Bytes :=
  let padLen := (55 + 64 - msg.length % 64) % 64 + 1
  msg ++ (128 :: List.replicate (padLen - 1) 0) ++
    natToBytesBE 8 (msg.length * 8)

/-- The 20-byte SHA-1 digest of a byte list. -/
def sha1Bytes (msg : Bytes) : Bytes :=
  let init : Nat × Nat × Nat × Nat × Nat :=
    (1732584193, 4023233417, 2562383102, 271733878, 3285377520)
  let (a, b, c, d, e) := (chunks64 (sha1Pad msg)).foldl sha1Block init
  wordToBytesBE a ++ wordToBytesBE b ++ wordToBytesBE c ++
    wordToBytesBE d ++ wordToBytesBE e

/-! ## HMAC-SHA1 (RFC 2104) -/

/-- Normalize an HMAC key to the 64-byte block size: keys longer than
one block are hashed first, then the key is zero-padded to 64 bytes.
This accepts keys of every length, which is why `Hmac::new_from_slice`
in the `hmac` crate never returns an error. -/
def hmacNormalizeKey (key : Bytes) : Bytes :=
  let k := if key.length > 64 then sha1Bytes key else key
  k ++ List.replicate (64 - k.length) 0

/-- The 20-byte HMAC-SHA1 tag of `msg` under `key`. -/
def hmacSha1 (key msg : Bytes) : Bytes :=
  let k := hmacNormalizeKey key
  let ipad := k.map (fun b => b ^^^ 54)
  let opad := k.map (fun b => b ^^^ 92)
  sha1Bytes (opad ++ sha1Bytes (ipad ++ msg))

/-! ## UTF-8 encoding of strings -/

/-- UTF-8 encoding of one Unicode scalar value (as `Rust str::as_bytes`
produces for each character). -/
def charUtf8 (c : Char) : Bytes :=
  let n := c.toNat
  if n < 128 then [n]
  else if n < 2048 then [192 ||| (n >>> 6), 128 ||| (n &&& 63)]
  else if n < 65536 then
    [224 ||| (n >>> 12), 128 ||| ((n >>> 6) &&& 63), 128 ||| (n &&& 63)]
  else
    [240 ||| (n >>> 18), 128 ||| ((n >>> 12) &&& 63),
      128 ||| ((n >>> 6) &&& 63), 128 ||| (n &&& 63)]

/-- UTF-8 bytes of a string (`str::as_bytes`). -/
def utf8Bytes (s : String) : Bytes :=
  (s.data.map charUtf8).flatten

/-! ## JSON values (`serde_json::Value`) and their compact serialization -/

/-- The `serde_json::Value` type. Numbers are modelled as integers,
which covers every input the claims exercise; the claims do not depend
on floating-point serialization. -/
inductive Value where
  | null
  | bool (b : Bool)
  | num (n : Int)
  | str (s : String)
  | arr (elems : List Value)
  | obj (entries : List (String × Value))

/-- Lowercase hexadecimal digit. -/
def hexDigit (n : Nat) : Char :=
  "0123456789abcdef".data.getD (n % 16) (Char.ofNat 48)

/-- Uppercase hexadecimal digit. -/
def hexDigitU (n : Nat) : Char :=
  "0123456789ABCDEF".data.getD (n % 16) (Char.ofNat 48)

/-- Escape of one character inside a JSON string literal, as
`serde_json` writes it: quote and backslash get a backslash escape,
the common control characters get their short backslash forms, remaining
control characters become `\u00xx`. -/
def escapeJsonChar (c : Char) : List Char :=
  let n := c.toNat
  if n = 34 then [Char.ofNat 92, Char.ofNat 34]
  else if n = 92 then [Char.ofNat 92, Char.ofNat 92]
  else if n = 8 then [Char.ofNat 92, Char.ofNat 98]
  else if n = 9 then [Char.ofNat 92, Char.ofNat 116]
  else if n = 10 then [Char.ofNat 92, Char.ofNat 110]
  else if n = 12 then [Char.ofNat 92, Char.ofNat 102]
  else if n = 13 then [Char.ofNat 92, Char.ofNat 114]
  else if n < 32 then
    [Char.ofNat 92, Char.ofNat 117, Char.ofNat 48, Char.ofNat 48,
      hexDigit (n >>> 4), hexDigit n]
  else [c]

/-- JSON string literal for `s`: surrounding quotes plus escapes. -/
def quoteJson (s : String) : String :=
  String.mk (Char.ofNat 34 :: ((s.data.map escapeJsonChar).flatten ++ [Char.ofNat 34]))

mutual

/-- Compact JSON text of a value, as `serde_json::to_vec` writes it
(no spaces, object entries in stored order). -/
def render : Value → String
  | Value.null => "null"
  | Value.bool true => "true"
  | Value.bool false => "false"
  | Value.num n => toString n
  | Value.str s => quoteJson s
  | Value.arr xs => "[" ++ renderArr xs ++ "]"
  | Value.obj kvs => "\x7b" ++ renderObj kvs ++ "\x7d"

/-- Comma-separated rendering of array elements. -/
def renderArr : List Value → String
  | [] => ""
  | [v] => render v
  | v :: vs => render v ++ "," ++ renderArr vs

/-- Comma-separated rendering of object entries. -/
def renderObj : List (String × Value) → String
  | [] => ""
  | [(k, v)] => quoteJson k ++ ":" ++ render v
  | (k, v) :: kvs => quoteJson k ++ ":" ++ render v ++ "," ++ renderObj kvs

end

/-- Serialization of a value to bytes, the model of
`serde_json::to_vec(&value)`. -/
def jsonBytes (v : Value) : Bytes := utf8Bytes (render v)

/-! ## Query strings (`serde_qs::to_string`) -/

/-- Percent-escape of one byte in a query string: unreserved bytes
(alphanumeric and `-._~`) pass through, the rest become `%XX`. -/
def qsEscapeByte (b : Nat) : List Char :=
  if (48 ≤ b ∧ b ≤ 57) ∨ (65 ≤ b ∧ b ≤ 90) ∨ (97 ≤ b ∧ b ≤ 122) ∨
      b = 45 ∨ b = 46 ∨ b = 95 ∨ b = 126 then [Char.ofNat b]
  else [Char.ofNat 37, hexDigitU (b >>> 4), hexDigitU b]

/-- Percent-escaped form of a string. -/
def qsEscape (s : String) : String :=
  String.mk ((utf8Bytes s).map qsEscapeByte).flatten

/-- Plain text of a scalar value in a query string. -/
def qsScalar : Value → String
  | Value.null => ""
  | Value.bool true => "true"
  | Value.bool false => "false"
  | Value.num n => toString n
  | Value.str s => s
  | Value.arr _ => ""
  | Value.obj _ => ""

mutual

/-- Key-value pairs produced for one value under key path `kp`,
using the nested-bracket convention (`kp[sub]=value`). -/
def qsPairs (kp : String) : Value → List String
  | Value.obj kvs => qsPairsObj kp kvs
  | Value.arr xs => qsPairsArr kp 0 xs
  | v => [kp ++ "=" ++ qsEscape (qsScalar v)]

/-- Pairs for the entries of a nested object. -/
def qsPairsObj (kp : String) : List (String × Value) → List String
  | [] => []
  | (k, v) :: kvs => qsPairs (kp ++ "[" ++ qsEscape k ++ "]") v ++ qsPairsObj kp kvs

/-- Pairs for the elements of a nested array, indexed from `i`. -/
def qsPairsArr (kp : String) (i : Nat) : List Value → List String
  | [] => []
  | v :: vs => qsPairs (kp ++ "[" ++ toString i ++ "]") v ++ qsPairsArr kp (i + 1) vs

end

/-- Pairs for the top-level parameter map (keys without brackets). -/
def qsTop : List (String × Value) → List String
  | [] => []
  | (k, v) :: kvs => qsPairs (qsEscape k) v ++ qsTop kvs

/-- Join pair strings with ampersands. -/
def joinAmp : List String → String
  | [] => ""
  | [s] => s
  | s :: ss => s ++ "&" ++ joinAmp ss

/-- Model of `serde_qs::to_string(&params)`. It is infallible for the
`Map<String, Value>` shape the source passes: every entry serializes by
the bracket convention above; the `Except` mirrors the source's `?`. -/
def qsToString (ps : List (String × Value)) : Except String String :=
  Except.ok (joinAmp (qsTop ps))

/-! ## The client (`RemitanoApi`) -/

/-- Default API origin, the `API_URL` constant of the source. -/
def API_URL : String := "https://api.remitano.com"

/-- The client configuration: credentials, origin and timeout, with the
defaults the builder supplies. -/
structure RemitanoApi where
  key : String
  secret : String
  api_url : String := API_URL
  timeout_ms : Nat := 3000

/-- Model of `serde_json::to_vec(&data)` inside `hmac`/`md5`. For
`serde_json::Value` this serialization is infallible (values hold only
finite numbers and string keys); the `Except` mirrors the source's `?`. -/
def toVecE (v : Value) : Except String Bytes :=
  Except.ok (jsonBytes v)

/-- Byte extraction shared by `hmac` and `md5`: a string value gives its
raw UTF-8 bytes, any other value its JSON serialization, absence the
empty sequence. -/
def signableBytesE : Option Value → Except String Bytes
  | some (Value.str s) => Except.ok (utf8Bytes s)
  | some v => toVecE v
  | none => Except.ok []

/-- Total closed form of `signableBytesE`. -/
def signableBytes : Option Value → Bytes
  | some (Value.str s) => utf8Bytes s
  | some v => jsonBytes v
  | none => []

/-- Model of `HmacSha1::new_from_slice(secret)`: per RFC 2104 and the
`hmac` crate, key setup accepts slices of every length (long keys are
hashed first, short keys zero-padded), so it never returns an error. -/
def hmacNewFromSlice (key : Bytes) : Except String Bytes :=
  Except.ok (hmacNormalizeKey key)

/-- Finalize an HMAC-SHA1 computation from an already normalized key. -/
def hmacFinalize (k msg : Bytes) : Bytes :=
  sha1Bytes ((k.map (fun b => b ^^^ 92)) ++
    sha1Bytes ((k.map (fun b => b ^^^ 54)) ++ msg))

/-- The `RemitanoApi::hmac` method: extract signable bytes, initialize
the MAC from the secret, and return the base64 tag. -/
def RemitanoApi.hmac (api : RemitanoApi) (data : Option Value) :
    Except String String :=
  match signableBytesE data with
  | Except.error e => Except.error e
  | Except.ok value =>
    match hmacNewFromSlice (utf8Bytes api.secret) with
    | Except.error e => Except.error e
    | Except.ok k => Except.ok (base64Encode (hmacFinalize k value))

/-- The `RemitanoApi::md5` method: extract signable bytes and return
the base64 MD5 digest (the receiver is unused, as in the source). -/
def RemitanoApi.md5 (_api : RemitanoApi) (data : Option Value) :
    Except String String :=
  match signableBytesE data with
  | Except.error e => Except.error e
  | Except.ok value => Except.ok (base64Encode (md5Bytes value))

/-- The header set assembled by `request` (insertion into the
`HeaderMap`, including the `Authorization` header added after
signing). Reading a value back from the map, as the source does for
`Content-MD5` and `Date` when building the canonical string, returns
exactly the inserted string. -/
structure HeaderSet where
  user_agent : String
  accept : String
  content_type : String
  content_md5 : String
  date : String
  authorization : String

/-- Everything `request` hands to the HTTP transport, together with the
canonical string it signed (kept for specification purposes; it is
never transmitted). -/
structure BuiltRequest where
  method : String
  url : String
  headers : HeaderSet
  body_bytes : Bytes
  canonical : String
  timeout_ms : Nat

/-- The canonical request string: the source's
`format!("{},application/json,{},/{},{}", method, md5, url, date)`. -/
def canonicalString (method contentMd5 requestUrl date : String) : String :=
  method ++ ",application/json," ++ contentMd5 ++ ",/" ++ requestUrl ++ "," ++ date

/-- The query suffix: `?` followed by the serialized parameters when
they are supplied, the empty string otherwise. -/
def queryStringE (params : Option (List (String × Value))) :
    Except String String :=
  match params with
  | some ps =>
    match qsToString ps with
    | Except.error e => Except.error e
    | Except.ok s => Except.ok ("?" ++ s)
  | none => Except.ok ""

/-- The fixed user-agent string of the source. -/
def USER_AGENT_VALUE : String :=
  "Mozilla/5.0 (Macintosh; Intel Mac OS X 10.15; rv:85.0) Gecko/20100101 Firefox/85.0"

/-- The `RemitanoApi::request` method up to the hand-off to the HTTP
transport. The `method` argument is the display form of the
`reqwest::Method` value (`GET`, `POST`, ...); `dateStr` is the formatted
current time `HttpDate::from(SystemTime::now()).to_string()`, taken as
an input since the clock is external. The dispatched body is
`body.unwrap_or_default()` serialized by `.json(..)`, where the default
`Value` is `Value::Null`. -/
def RemitanoApi.request (api : RemitanoApi) (method endpoint : String)
    (params : Option (List (String × Value))) (body : Option Value)
    (dateStr : String) : Except String BuiltRequest :=
  match api.md5 body with
  | Except.error e => Except.error e
  | Except.ok contentMd5 =>
    match queryStringE params with
    | Except.error e => Except.error e
    | Except.ok query =>
      let request_url := "api/v1/" ++ endpoint ++ query
      let request_str := canonicalString method contentMd5 request_url dateStr
      match api.hmac (some (Value.str request_str)) with
      | Except.error e => Except.error e
      | Except.ok sig =>
        Except.ok
          { method := method
            url := api.api_url ++ "/" ++ request_url
            headers :=
              { user_agent := USER_AGENT_VALUE
                accept := "application/json"
                content_type := "application/json"
                content_md5 := contentMd5
                date := dateStr
                authorization := "APIAuth " ++ api.key ++ ":" ++ sig }
            body_bytes := jsonBytes ((body.getD Value.null))
            canonical := request_str
            timeout_ms := api.timeout_ms }

/-! ## Closed forms and basic lemmas -/

/-- The content digest as a total function: base64 of the MD5 hash of
the signable bytes. -/
def contentDigest (data : Option Value) : String :=
  base64Encode (md5Bytes (signableBytes data))

/-- The keyed signature as a total function: base64 of the HMAC-SHA1
tag of the signable bytes under the secret. -/
def signDigest (secret : String) (data : Option Value) : String :=
  base64Encode (hmacSha1 (utf8Bytes secret) (signableBytes data))

/-- The query suffix as a total function. -/
def queryOf : Option (List (String × Value)) → String
  | some ps => "?" ++ joinAmp (qsTop ps)
  | none => ""

/-- The request path `api/v1/<endpoint><query>`. -/
def requestUrlOf (endpoint : String)
    (params : Option (List (String × Value))) : String :=
  "api/v1/" ++ endpoint ++ queryOf params

/-- Closed form of the value `request` hands to the transport. -/
def builtRequest (api : RemitanoApi) (method endpoint : String)
    (params : Option (List (String × Value))) (body : Option Value)
    (dateStr : String) : BuiltRequest :=
  let contentMd5 := contentDigest body
  let request_url := requestUrlOf endpoint params
  let request_str := canonicalString method contentMd5 request_url dateStr
  { method := method
    url := api.api_url ++ "/" ++ request_url
    headers :=
      { user_agent := USER_AGENT_VALUE
        accept := "application/json"
        content_type := "application/json"
        content_md5 := contentMd5
        date := dateStr
        authorization :=
          "APIAuth " ++ api.key ++ ":" ++
            signDigest api.secret (some (Value.str request_str)) }
    body_bytes := jsonBytes (body.getD Value.null)
    canonical := request_str
    timeout_ms := api.timeout_ms }

/-- Byte extraction with the `Except` wrapper always succeeds. -/
theorem signableBytesE_eq (data : Option Value) :
    signableBytesE data = Except.ok (signableBytes data) := by
  cases data with
  | none => rfl
  | some v => cases v <;> rfl

/-- The `md5` method always returns the content digest. -/
theorem md5_ok (api : RemitanoApi) (data : Option Value) :
    api.md5 data = Except.ok (contentDigest data) := by
  cases data with
  | none => rfl
  | some v => cases v <;> rfl

/-- The `hmac` method always returns the keyed signature. -/
theorem hmac_ok (api : RemitanoApi) (data : Option Value) :
    api.hmac data = Except.ok (signDigest api.secret data) := by
  cases data with
  | none => rfl
  | some v => cases v <;> rfl

/-- The `request` method always reaches the transport hand-off, with
the closed-form built request. -/
theorem request_ok (api : RemitanoApi) (method endpoint : String)
    (params : Option (List (String × Value))) (body : Option Value)
    (dateStr : String) :
    api.request method endpoint params body dateStr =
      Except.ok (builtRequest api method endpoint params body dateStr) := by
  cases params with
  | none =>
    cases body with
    | none => rfl
    | some v => cases v <;> rfl
  | some ps =>
    cases body with
    | none => rfl
    | some v => cases v <;> rfl

/-- The configuration of the source's test module: key `key`, secret
`secret`, default origin and timeout. -/
def testApi : RemitanoApi :=
  { key := "key", secret := "secret" }

/-- A sample formatted date, in the HTTP date format the source's
`HttpDate` produces. -/
def sampleDate : String := "Tue, 15 Nov 1994 08:12:31 GMT"

/-- Appending the empty string is the identity. -/
theorem string_append_empty (s : String) : s ++ "" = s := by
  obtain ⟨l⟩ := s
  show String.mk (l ++ []) = String.mk l
  rw [List.append_nil]

/-- The digest of a string value is taken over its raw UTF-8 bytes. -/
theorem md5_string_raw (api : RemitanoApi) (s : String) :
    api.md5 (some (Value.str s)) =
      Except.ok (base64Encode (md5Bytes (utf8Bytes s))) := rfl

/-- Hashing the raw bytes of `hash me` and hashing its JSON-quoted
serialization give different digests, so the string branch is
observable. -/
theorem md5_quoting_sample_divergence :
    base64Encode (md5Bytes (utf8Bytes "hash me")) ≠
      base64Encode (md5Bytes (jsonBytes (Value.str "hash me"))) := by decide

/-! ## Claims -/

/-- C1 (amended): for a GET to `users/1` with no query and no body, the
canonical request string handed to the signing step is
`GET,application/json,D,/api/v1/users/1,T` — the path field carries a
leading slash — where `D` is the Content-MD5 header value
(`1B2M2Y8AsgTpgAmY7PhCfg==`, the digest of the empty body) and `T` is
the Date header value. -/
theorem canonical_string_users1 (key secret api_url : String) (t : Nat)
    (dateStr : String) :
    ∃ r, (RemitanoApi.mk key secret api_url t).request "GET" "users/1"
        none none dateStr = Except.ok r ∧
      r.headers.content_md5 = "1B2M2Y8AsgTpgAmY7PhCfg==" ∧
      r.headers.date = dateStr ∧
      r.canonical =
        "GET,application/json,1B2M2Y8AsgTpgAmY7PhCfg==,/api/v1/users/1," ++
          dateStr := by
  obtain ⟨l⟩ := dateStr
  exact ⟨_, rfl, rfl, rfl, rfl⟩

/-- C1 (counterexample): at the concrete date `T = sampleDate`, the
canonical request string contains the path `/api/v1/users/1`, not the
claimed `api/v1/users/1` without the slash; the two strings differ. -/
theorem canonical_string_no_slash_counterexample :
    ((testApi.request "GET" "users/1" none none sampleDate).map
        (fun r => (r.headers.content_md5, r.headers.date, r.canonical)) =
      Except.ok ("1B2M2Y8AsgTpgAmY7PhCfg==", sampleDate,
        "GET,application/json,1B2M2Y8AsgTpgAmY7PhCfg==,/api/v1/users/1,Tue, 15 Nov 1994 08:12:31 GMT")) ∧
    ("GET,application/json,1B2M2Y8AsgTpgAmY7PhCfg==,/api/v1/users/1,Tue, 15 Nov 1994 08:12:31 GMT" : String) ≠
      "GET,application/json," ++ "1B2M2Y8AsgTpgAmY7PhCfg==" ++
        ",api/v1/users/1," ++ "Tue, 15 Nov 1994 08:12:31 GMT" :=
  ⟨rfl, by decide⟩

/-- C2: with secret `secret` and key `key`, the content digest of the
string value `hash me` is `F7Mdzpa51sbQprqV9HeW+w==` and its keyed
signature is `oSVlCBpf9BqviWbUjOm4DXEcgRo=`, the vectors asserted by
the source's own tests. -/
theorem digest_and_signature_vectors :
    testApi.md5 (some (Value.str "hash me")) =
        Except.ok "F7Mdzpa51sbQprqV9HeW+w==" ∧
      testApi.hmac (some (Value.str "hash me")) =
        Except.ok "oSVlCBpf9BqviWbUjOm4DXEcgRo=" :=
  ⟨rfl, rfl⟩

/-- C3: every built request carries the Authorization header
`APIAuth <key>:<sig>` where `<sig>` is exactly the `hmac` signature of
the canonical request string taken as a string-kind value (raw bytes,
no JSON quoting) under the configured secret. -/
theorem authorization_header_is_keyed_signature (api : RemitanoApi)
    (method endpoint : String) (params : Option (List (String × Value)))
    (body : Option Value) (dateStr : String) :
    ∃ r, api.request method endpoint params body dateStr = Except.ok r ∧
      r.headers.authorization =
        "APIAuth " ++ api.key ++ ":" ++
          base64Encode (hmacSha1 (utf8Bytes api.secret) (utf8Bytes r.canonical)) ∧
      api.hmac (some (Value.str r.canonical)) =
        Except.ok
          (base64Encode (hmacSha1 (utf8Bytes api.secret) (utf8Bytes r.canonical))) :=
  ⟨_, request_ok api method endpoint params body dateStr, rfl,
    hmac_ok api _⟩

/-- C4 (amended): when the caller supplies no body, the request hands
the transport the JSON serialization of `Value::Null` — the four bytes
`null` — because the source dispatches `body.unwrap_or_default()`
through `.json(..)` and the default `Value` is `Null`; the dispatched
body is not empty. -/
theorem none_body_sends_json_null (api : RemitanoApi)
    (method endpoint : String) (params : Option (List (String × Value)))
    (dateStr : String) :
    ∃ r, api.request method endpoint params none dateStr = Except.ok r ∧
      r.body_bytes = jsonBytes Value.null ∧
      jsonBytes Value.null = utf8Bytes "null" ∧
      jsonBytes Value.null ≠ [] :=
  ⟨_, request_ok api method endpoint params none dateStr, rfl, rfl,
    by decide⟩

/-- C4 (counterexample): for the concrete GET to `users/1` with no
body, the bytes handed to the transport are the serialization of the
JSON value `null`, which is not an empty body. -/
theorem empty_body_counterexample :
    ((testApi.request "GET" "users/1" none none sampleDate).map
        (fun r => r.body_bytes) = Except.ok (utf8Bytes "null")) ∧
      utf8Bytes "null" = jsonBytes Value.null ∧
      utf8Bytes "null" ≠ ([] : Bytes) :=
  ⟨rfl, rfl, by decide⟩

/-- C5: the content digest of an absent value is the base64 MD5 digest
of the empty byte sequence (`1B2M2Y8AsgTpgAmY7PhCfg==`), and it differs
from the digest of the JSON `null` literal, which hashes the four bytes
`null` to `N6YlnMDB2uKZp4Zkid/wvQ==`. -/
theorem digest_of_absent_body :
    testApi.md5 none = Except.ok (base64Encode (md5Bytes [])) ∧
      base64Encode (md5Bytes []) = "1B2M2Y8AsgTpgAmY7PhCfg==" ∧
      testApi.md5 (some Value.null) =
        Except.ok (base64Encode (md5Bytes (utf8Bytes "null"))) ∧
      testApi.md5 (some Value.null) = Except.ok "N6YlnMDB2uKZp4Zkid/wvQ==" ∧
      testApi.md5 none ≠ testApi.md5 (some Value.null) := by
  refine ⟨rfl, rfl, rfl, rfl, fun h => ?_⟩
  rw [show testApi.md5 none = Except.ok "1B2M2Y8AsgTpgAmY7PhCfg==" from rfl,
    show testApi.md5 (some Value.null) = Except.ok "N6YlnMDB2uKZp4Zkid/wvQ==" from rfl] at h
  simp only [Except.ok.injEq] at h
  exact absurd h (by decide)

/-- C7: the content digest of any non-string value is the base64 MD5
digest of the bytes of its JSON serialization. -/
theorem digest_of_structured_value (api : RemitanoApi) (v : Value)
    (h : ∀ s, v ≠ Value.str s) :
    api.md5 (some v) = Except.ok (base64Encode (md5Bytes (jsonBytes v))) := by
  cases v with
  | str s => exact absurd rfl (h s)
  | null => rfl
  | bool b => rfl
  | num n => rfl
  | arr xs => rfl
  | obj kvs => rfl

/-- C7 (witness): the structured-value digest rule applied at the
concrete value `null`. -/
theorem digest_of_structured_value_witness :
    testApi.md5 (some Value.null) =
      Except.ok (base64Encode (md5Bytes (jsonBytes Value.null))) :=
  digest_of_structured_value testApi Value.null
    (fun _ h => Value.noConfusion h)

/-- C8: in every built request, the digest and the timestamp embedded
in the canonical request string are exactly the Content-MD5 and Date
header values: the canonical string is `canonicalString` applied to
those very header strings, for any body and any date. -/
theorem canonical_reuses_header_values (api : RemitanoApi)
    (method endpoint : String) (params : Option (List (String × Value)))
    (body : Option Value) (dateStr : String) :
    ∃ r, api.request method endpoint params body dateStr = Except.ok r ∧
      r.headers.date = dateStr ∧
      r.canonical =
        canonicalString method r.headers.content_md5
          ("api/v1/" ++ endpoint ++ queryOf params) r.headers.date :=
  ⟨_, request_ok api method endpoint params body dateStr, rfl, rfl⟩

/-- C9: MAC key setup never fails — `new_from_slice` accepts secrets of
every length — so `hmac` returns `Ok` for every secret and every
optional value. -/
theorem hmac_never_fails :
    (∀ key : Bytes, hmacNewFromSlice key = Except.ok (hmacNormalizeKey key)) ∧
      ∀ (api : RemitanoApi) (data : Option Value),
        ∃ s, api.hmac data = Except.ok s :=
  ⟨fun _ => rfl, fun api data => ⟨_, hmac_ok api data⟩⟩

/-- C10: supplying `Some` with an empty parameter map still appends a
bare `?`: the path becomes `api/v1/<endpoint>?` with nothing after the
question mark, both in the dispatched URL and in the canonical string's
path field; any `Some` parameters insert a `?`, while `None` appends
nothing to `api/v1/<endpoint>`. -/
theorem empty_params_trailing_question_mark (api : RemitanoApi)
    (method endpoint : String) (body : Option Value) (dateStr : String) :
    (∃ r, api.request method endpoint (some []) body dateStr = Except.ok r ∧
        r.url = api.api_url ++ "/" ++ ("api/v1/" ++ endpoint ++ "?") ∧
        r.canonical =
          canonicalString method r.headers.content_md5
            ("api/v1/" ++ endpoint ++ "?") dateStr) ∧
    (∀ ps, ∃ r, api.request method endpoint (some ps) body dateStr =
          Except.ok r ∧
        r.url = api.api_url ++ "/" ++
          ("api/v1/" ++ endpoint ++ ("?" ++ joinAmp (qsTop ps)))) ∧
    (∃ r, api.request method endpoint none body dateStr = Except.ok r ∧
        r.url = api.api_url ++ "/" ++ ("api/v1/" ++ endpoint)) := by
  refine ⟨⟨_, request_ok api method endpoint (some []) body dateStr, rfl, rfl⟩,
    fun ps => ⟨_, request_ok api method endpoint (some ps) body dateStr, rfl⟩,
    ⟨_, request_ok api method endpoint none body dateStr, ?_⟩⟩
  show api.api_url ++ "/" ++ ("api/v1/" ++ (endpoint ++ "")) =
    api.api_url ++ "/" ++ ("api/v1/" ++ endpoint)
  rw [string_append_empty]

end Remitano
